import Mathlib

/-!
Shallow embedding of the ERP financial analytics backend (src/api/main.py).

Monetary amounts are modelled as rationals (`ℚ`); the source's float
arithmetic is exact at the algebraic level the claims speak about, and ℚ
division by zero yields 0, standing in for the source's float division.
Dates (`period_date`) are modelled as integers (absolute day numbers), so
the source's date comparisons and `timedelta(days = n)` arithmetic become
integer comparisons and subtraction.

Randomness: the source draws from `np.random.normal` at fixed points of the
per-month loop.  The embedding threads those draws in explicitly, one
`Draws` record per month, so the generator is a deterministic function of
its draw stream; claims universally quantify over the draws.  The seasonal
factor `1 + 0.1 * sin(2*pi*month/12)` involves a transcendental value, so
the embedding carries the value of `sin(2*pi*month/12)` as the per-month
field `sinMonth`; all claims hold for every value of that field.
-/

namespace ErpFinancial

/-- ORM row of table financial_periods (src/api/main.py, FinancialPeriod).
`company_unit` has column default "consolidated". -/
structure FinancialPeriod where
  period_date : ℤ
  company_unit : String := "consolidated"
  revenue : ℚ
  cogs : ℚ
  gross_profit : ℚ
  salaries : ℚ
  marketing : ℚ
  rd_expense : ℚ
  operations : ℚ
  other_expenses : ℚ
  total_expenses : ℚ
  net_profit : ℚ
  gross_margin_pct : ℚ
  net_margin_pct : ℚ
deriving DecidableEq

/-- ORM row of table budget_data (src/api/main.py, BudgetData). -/
structure BudgetData where
  period_date : ℤ
  company_unit : String := "consolidated"
  budget_revenue : ℚ
  budget_net_profit : ℚ
  budget_expenses : ℚ
deriving DecidableEq

/-- ORM row of table cash_flow_data (src/api/main.py, CashFlowData). -/
structure CashFlowData where
  period_date : ℤ
  company_unit : String := "consolidated"
  operating_cash_flow : ℚ
  investing_cash_flow : ℚ
  financing_cash_flow : ℚ
  net_cash_flow : ℚ
  cash_balance : ℚ
deriving DecidableEq

/-- The relational store: the three tables of the SQLite database. -/
structure Store where
  financial_periods : List FinancialPeriod
  budget_data : List BudgetData
  cash_flow_data : List CashFlowData
deriving DecidableEq

def emptyStore : Store := ⟨[], [], []⟩

/-- The `np.random.normal` draws one loop iteration of
`generate_sample_financial_data` consumes, in source order. -/
structure Draws where
  randomFactor : ℚ
  cogsPct : ℚ
  salariesPct : ℚ
  marketingPct : ℚ
  rdPct : ℚ
  operationsPct : ℚ
  otherPct : ℚ
  budgetVariance : ℚ
  budgetExpensesDraw : ℚ
  operatingNoise : ℚ
  investingDraw : ℚ
  financingDraw : ℚ
deriving DecidableEq

/-- One iteration of the generator's month loop: the month's first-of-month
date, the value of `sin(2*pi*month/12)` for its calendar month (carried as
data because it is transcendental), the `months_since_start` index, and the
month's random draws. -/
structure MonthInput where
  period_date : ℤ
  sinMonth : ℚ
  monthsSinceStart : ℕ
  draws : Draws
deriving DecidableEq

/-- Generator configuration.  In the source both values are hardcoded
constants: `revenue_base = 50000000` (line 169) and the starting cash
balance `10000000` (line 230); the embedding names them so claims about
other values of the base can be stated. -/
structure GenConfig where
  revenueBase : ℚ
  startingBalance : ℚ
deriving DecidableEq

/-- The source's constants: $50M annual revenue base, $10M starting cash. -/
def sourceConfig : GenConfig := ⟨50000000, 10000000⟩

/-- `monthly_revenue` of one loop iteration:
`(revenue_base / 12) * month_factor * growth_factor * random_factor`
floored at 0, with `month_factor = 1 + 0.1 * sin(2*pi*month/12)` and
`growth_factor = 1 + months_since_start * 0.005`. -/
def monthlyRevenue (cfg : GenConfig) (m : MonthInput) : ℚ :=
  max ((cfg.revenueBase / 12) * (1 + (1 / 10) * m.sinMonth)
    * (1 + (m.monthsSinceStart : ℚ) * (5 / 1000)) * m.draws.randomFactor) 0

/-- `ORDER BY period_date DESC ... first()`: an element of maximal
`period_date` of the list, or `none` for the empty list. -/
def pickLatest (rows : List CashFlowData) : Option CashFlowData :=
  rows.foldl (fun acc c =>
    match acc with
    | none => some c
    | some b => if b.period_date < c.period_date then some c else some b) none

/-- The generator's previous-balance query (src lines 232-234): cash-flow
rows with `period_date < d`, newest first, first row.  Note the source
query has no company-unit filter.  Because the session is created with
`autoflush=False` and the lone `db.commit()` runs after the whole loop,
this query sees only rows that were already committed before the run
started — the rows `db.add`ed earlier in the same run are invisible to it. -/
def prevCash (committed : List CashFlowData) (d : ℤ) : Option CashFlowData :=
  pickLatest (committed.filter (fun c => decide (c.period_date < d)))

/-- One iteration of the generator's month loop (src lines 171-254),
producing the three rows that `db.add` stages.  `committedCash` is the
cash_flow_data table as committed before the run (see `prevCash`). -/
def genMonth (cfg : GenConfig) (committedCash : List CashFlowData)
    (startDate : ℤ) (m : MonthInput) :
    FinancialPeriod × BudgetData × CashFlowData :=
  let monthly_revenue := monthlyRevenue cfg m
  let cogs := monthly_revenue * m.draws.cogsPct
  let salaries := monthly_revenue * m.draws.salariesPct
  let marketing := monthly_revenue * m.draws.marketingPct
  let rd := monthly_revenue * m.draws.rdPct
  let operations := monthly_revenue * m.draws.operationsPct
  let other_expenses := monthly_revenue * m.draws.otherPct
  let total_expenses := cogs + salaries + marketing + rd + operations + other_expenses
  let gross_profit := monthly_revenue - cogs
  let net_profit := monthly_revenue - total_expenses
  let gross_margin := (gross_profit / monthly_revenue) * 100
  let net_margin := (net_profit / monthly_revenue) * 100
  let fp : FinancialPeriod :=
    { period_date := m.period_date
      revenue := monthly_revenue
      cogs := cogs
      gross_profit := gross_profit
      salaries := salaries
      marketing := marketing
      rd_expense := rd
      operations := operations
      other_expenses := other_expenses
      total_expenses := total_expenses
      net_profit := net_profit
      gross_margin_pct := gross_margin
      net_margin_pct := net_margin }
  let budget_variance := m.draws.budgetVariance
  let bd : BudgetData :=
    { period_date := m.period_date
      budget_revenue := monthly_revenue * budget_variance
      budget_net_profit := net_profit * budget_variance
      budget_expenses := total_expenses * m.draws.budgetExpensesDraw }
  let operating_cf := net_profit + m.draws.operatingNoise
  let investing_cf := m.draws.investingDraw
  let financing_cf := m.draws.financingDraw
  let net_cf := operating_cf + investing_cf + financing_cf
  let previous_balance :=
    if startDate < m.period_date then
      match prevCash committedCash m.period_date with
      | some c => c.cash_balance
      | none => cfg.startingBalance
    else cfg.startingBalance
  let cf : CashFlowData :=
    { period_date := m.period_date
      operating_cash_flow := operating_cf
      investing_cash_flow := investing_cf
      financing_cash_flow := financing_cf
      net_cash_flow := net_cf
      cash_balance := previous_balance + net_cf }
  (fp, bd, cf)

/-- `generate_sample_financial_data` (src lines 152-257): skip when any
financial_periods rows exist; otherwise run the month loop staging three
rows per month and commit once at the end.  Because of `autoflush=False`,
every iteration's previous-balance query reads the pre-run cash_flow_data
table. -/
def generate_sample_financial_data (cfg : GenConfig) (startDate : ℤ)
    (months : List MonthInput) (db : Store) : Store :=
  if 0 < db.financial_periods.length then db
  else
    let rows := months.map (genMonth cfg db.cash_flow_data startDate)
    { financial_periods := db.financial_periods ++ rows.map (fun r => r.1)
      budget_data := db.budget_data ++ rows.map (fun r => r.2.1)
      cash_flow_data := db.cash_flow_data ++ rows.map (fun r => r.2.2) }

/-- Response model of GET /financial/kpis (src, KPIResponse). -/
structure KPIResponse where
  total_revenue : ℚ
  revenue_growth_pct : ℚ
  total_profit : ℚ
  profit_growth_pct : ℚ
  net_margin_pct : ℚ
  margin_change_pp : ℚ
  cash_position : ℚ
  period_start : ℤ
  period_end : ℤ
deriving DecidableEq

/-- An HTTPException as the endpoint raises it: status code and detail. -/
structure HttpError where
  status : ℕ
  detail : String
deriving DecidableEq

/-- The KPI endpoint's current-window query (src lines 295-299):
`start_date <= period_date <= end_date` and matching company unit, where
`end_date = asOf` and `start_date = asOf - period_months * 30` days. -/
def currentData (period_months : ℕ) (unit : String) (asOf : ℤ) (db : Store) :
    List FinancialPeriod :=
  db.financial_periods.filter (fun p =>
    decide (asOf - (period_months : ℤ) * 30 ≤ p.period_date ∧
      p.period_date ≤ asOf ∧ p.company_unit = unit))

/-- The KPI endpoint's previous-window query (src lines 302-309):
`prev_start <= period_date < prev_end` with `prev_end = start_date` and
`prev_start = start_date - period_months * 30` days. -/
def previousData (period_months : ℕ) (unit : String) (asOf : ℤ) (db : Store) :
    List FinancialPeriod :=
  db.financial_periods.filter (fun p =>
    decide (asOf - (period_months : ℤ) * 30 - (period_months : ℤ) * 30 ≤ p.period_date ∧
      p.period_date < asOf - (period_months : ℤ) * 30 ∧ p.company_unit = unit))

/-- The KPI endpoint's cash query (src lines 334-337): most recent
cash-flow row with `period_date <= end_date` for the unit. -/
def latestCash (unit : String) (asOf : ℤ) (db : Store) : Option CashFlowData :=
  pickLatest (db.cash_flow_data.filter (fun c =>
    decide (c.period_date ≤ asOf ∧ c.company_unit = unit)))

/-- `sum(p.revenue for p in data)`. -/
def revenueSum (l : List FinancialPeriod) : ℚ := (l.map (fun p => p.revenue)).sum

/-- `sum(p.net_profit for p in data)`. -/
def profitSum (l : List FinancialPeriod) : ℚ := (l.map (fun p => p.net_profit)).sum

/-- `(profit / revenue) * 100 if revenue > 0 else 0` over a window's rows
(src lines 317 and 327). -/
def marginPct (l : List FinancialPeriod) : ℚ :=
  if 0 < revenueSum l then (profitSum l / revenueSum l) * 100 else 0

/-- The body of `get_financial_kpis` inside its `try` block (src lines
290-351): raises HTTPException 404 when the current window is empty,
otherwise computes totals, the guarded growth rates and the cash position. -/
def computeKPIsBody (period_months : ℕ) (unit : String) (asOf : ℤ)
    (db : Store) : Except HttpError KPIResponse :=
  let end_date := asOf
  let start_date := asOf - (period_months : ℤ) * 30
  let current_data := currentData period_months unit asOf db
  let previous_data := previousData period_months unit asOf db
  if current_data.isEmpty then
    .error ⟨404, "No financial data found for the specified period"⟩
  else
    let current_revenue := revenueSum current_data
    let current_profit := profitSum current_data
    let current_margin := marginPct current_data
    let growth :=
      if previous_data.isEmpty then ((0 : ℚ), (0 : ℚ), (0 : ℚ))
      else
        let prev_revenue := revenueSum previous_data
        let prev_profit := profitSum previous_data
        let prev_margin := marginPct previous_data
        (if 0 < prev_revenue then ((current_revenue - prev_revenue) / prev_revenue) * 100 else 0,
         if 0 < prev_profit then ((current_profit - prev_profit) / prev_profit) * 100 else 0,
         current_margin - prev_margin)
    let cash_position :=
      match latestCash unit asOf db with
      | some c => c.cash_balance
      | none => current_revenue * (15 / 100)
    .ok
      { total_revenue := current_revenue
        revenue_growth_pct := growth.1
        total_profit := current_profit
        profit_growth_pct := growth.2.1
        net_margin_pct := current_margin
        margin_change_pp := growth.2.2
        cash_position := cash_position
        period_start := start_date
        period_end := end_date }

/-- GET /financial/kpis as the client observes it.  The source wraps the
body in `try ... except Exception as e: raise HTTPException(500, ...)`
(src lines 353-355).  `HTTPException` is a subclass of `Exception`, so the
404 raised at line 312 is itself caught by that handler and re-raised as a
500 whose detail embeds `str(e)` (`"404: <detail>"`). -/
def get_financial_kpis (period_months : ℕ) (unit : String) (asOf : ℤ)
    (db : Store) : Except HttpError KPIResponse :=
  match computeKPIsBody period_months unit asOf db with
  | .ok r => .ok r
  | .error e =>
      .error ⟨500, "Error calculating KPIs: " ++ toString e.status ++ ": " ++ e.detail⟩

/-- Response row of GET /financial/periods (src, FinancialMetrics). -/
structure FinancialMetrics where
  period_date : ℤ
  revenue : ℚ
  cogs : ℚ
  gross_profit : ℚ
  salaries : ℚ
  marketing : ℚ
  rd_expense : ℚ
  operations : ℚ
  other_expenses : ℚ
  total_expenses : ℚ
  net_profit : ℚ
  gross_margin_pct : ℚ
  net_margin_pct : ℚ
deriving DecidableEq

/-- The field-for-field copy of a stored row into the response model
(src lines 381-395): nothing is recomputed. -/
def toMetrics (p : FinancialPeriod) : FinancialMetrics :=
  { period_date := p.period_date
    revenue := p.revenue
    cogs := p.cogs
    gross_profit := p.gross_profit
    salaries := p.salaries
    marketing := p.marketing
    rd_expense := p.rd_expense
    operations := p.operations
    other_expenses := p.other_expenses
    total_expenses := p.total_expenses
    net_profit := p.net_profit
    gross_margin_pct := p.gross_margin_pct
    net_margin_pct := p.net_margin_pct }

/-- The period-listing query before ordering (src lines 369-376): company
unit plus the optional date bounds. -/
def listMatching (sd ed : Option ℤ) (unit : String) (db : Store) :
    List FinancialPeriod :=
  let q := db.financial_periods.filter (fun p => decide (p.company_unit = unit))
  let q := match sd with
    | some s => q.filter (fun p => decide (s ≤ p.period_date))
    | none => q
  let q := match ed with
    | some e => q.filter (fun p => decide (p.period_date ≤ e))
    | none => q
  q

/-- Newest-first ordering: `ORDER BY period_date DESC`. -/
def byDateDesc (a b : FinancialPeriod) : Prop := b.period_date ≤ a.period_date

instance : DecidableRel byDateDesc := fun a b => by
  unfold byDateDesc; infer_instance

instance : IsTotal FinancialPeriod byDateDesc :=
  ⟨fun a b => le_total b.period_date a.period_date⟩

instance : IsTrans FinancialPeriod byDateDesc :=
  ⟨fun _ _ _ h1 h2 => le_trans h2 h1⟩

/-- `query.order_by(period_date.desc()).limit(limit).all()` (src line 378). -/
def listTaken (sd ed : Option ℤ) (unit : String) (lim : ℕ) (db : Store) :
    List FinancialPeriod :=
  (List.insertionSort byDateDesc (listMatching sd ed unit db)).take lim

/-- GET /financial/periods (src lines 358-397): filter, order newest-first,
truncate to `limit`, then `reversed(...)` so the client sees chronological
ascending order, each row copied field for field. -/
def get_financial_periods (sd ed : Option ℤ) (unit : String) (lim : ℕ)
    (db : Store) : List FinancialMetrics :=
  ((listTaken sd ed unit lim db).reverse).map toMetrics

/-! Observers and concrete inputs used by the witnesses and
counterexamples below. -/

/-- The growth fields of a successful KPI response, `none` on error. -/
def kpiGrowths (e : Except HttpError KPIResponse) : Option (ℚ × ℚ) :=
  match e with
  | .ok r => some (r.revenue_growth_pct, r.profit_growth_pct)
  | .error _ => none

/-- All-zero draw record, the base the concrete inputs below tweak. -/
def zeroDraws : Draws := ⟨0, 0, 0, 0, 0, 0, 0, 0, 0, 0, 0, 0⟩

/-- Draws producing operating noise 500000, investing -200000,
financing -100000, so a month's net cash flow is visibly nonzero. -/
def cashDraws : Draws :=
  { zeroDraws with
      operatingNoise := 500000
      investingDraw := -200000
      financingDraw := -100000 }

/-- First month of the two-month cash-chain run: day 1. -/
def c2Month0 : MonthInput :=
  { period_date := 1
    sinMonth := 0
    monthsSinceStart := 0
    draws := cashDraws }

/-- Second month of the two-month cash-chain run: day 32. -/
def c2Month1 : MonthInput :=
  { period_date := 32
    sinMonth := 0
    monthsSinceStart := 1
    draws := cashDraws }

/-- A month whose draws make the generated row have revenue 5 and
net profit -1 under `sourceConfig`: random factor `3/2500000` gives
revenue `(50000000/12) * (3/2500000) = 5`, and cogs share `6/5` gives
total expenses 6, hence net profit `-1`. -/
def cexMonthPrev : MonthInput :=
  { period_date := 10
    sinMonth := 0
    monthsSinceStart := 0
    draws := { zeroDraws with
                 randomFactor := 3 / 2500000
                 cogsPct := 6 / 5 } }

/-- A month whose draws make the generated row have revenue 1 and
net profit 1 under `sourceConfig`: random factor `3/12500000` gives
revenue 1 and all expense shares are 0. -/
def cexMonthCur : MonthInput :=
  { period_date := 40
    sinMonth := 0
    monthsSinceStart := 0
    draws := { zeroDraws with randomFactor := 3 / 12500000 } }

/-- A generator-produced store whose previous KPI window (12 months
before day 60 with `period_months = 1`) holds the revenue-5/profit–minus-1
row and whose current window holds the revenue-1/profit-1 row. -/
def cexStore : Store :=
  generate_sample_financial_data sourceConfig 0 [cexMonthPrev, cexMonthCur] emptyStore

/-- A stored financial_periods row with the given date, revenue and net
profit (remaining money fields 0, company_unit at its column default);
concrete content for endpoint-level witnesses. -/
def mkPeriod (d : ℤ) (rev np : ℚ) : FinancialPeriod :=
  { period_date := d
    revenue := rev
    cogs := 0
    gross_profit := 0
    salaries := 0
    marketing := 0
    rd_expense := 0
    operations := 0
    other_expenses := 0
    total_expenses := 0
    net_profit := np
    gross_margin_pct := 0
    net_margin_pct := 0 }

/-- The spec's growth scenario store: current window (days 30-60 for
`period_months = 1`, `asOf = 60`) holds revenue 1000000/1200000 with net
profit 100000/150000; the previous window (days 0-29) holds revenue
900000/1000000 with net profit 80000/90000. -/
def scenarioStore : Store :=
  ⟨[mkPeriod 5 900000 80000, mkPeriod 15 1000000 90000,
    mkPeriod 35 1000000 100000, mkPeriod 45 1200000 150000], [], []⟩

/-- A store with one row in the current window (date 40 for
`period_months = 1`, `asOf = 60`) and none in the previous window. -/
def noBaselineStore : Store := ⟨[mkPeriod 40 7 3], [], []⟩

/-- A store already holding one financial row, for the idempotence
witness. -/
def preloadedStore : Store := ⟨[mkPeriod 40 7 3], [], []⟩

/-- A month with random factor 1 and everything else zero. -/
def plainMonth : MonthInput :=
  { period_date := 1
    sinMonth := 0
    monthsSinceStart := 0
    draws := { zeroDraws with randomFactor := 1 } }

/-- A configuration with a negative annual revenue base. -/
def negBaseConfig : GenConfig := ⟨-12, 10000000⟩

/-- The single financial row of a one-month run over `plainMonth`. -/
def c3Row : FinancialPeriod :=
  (genMonth sourceConfig emptyStore.cash_flow_data 0 plainMonth).1

/-- C1: the spec reserves HTTP 404 for an empty current window and HTTP
500 for unexpected computation failures.  On the code, the 404
HTTPException raised inside the `try` block (src line 312) is itself an
`Exception`, so the blanket `except Exception` handler (src lines 353-355)
catches it and re-raises it as HTTP 500: whenever the current window holds
zero matching records the client observes 500, never 404. -/
theorem claim_c1_empty_window_surfaces_500 (period_months : ℕ) (unit : String)
    (asOf : ℤ) (db : Store)
    (h : currentData period_months unit asOf db = []) :
    get_financial_kpis period_months unit asOf db =
      .error ⟨500,
        "Error calculating KPIs: 404: No financial data found for the specified period"⟩ := by
  unfold get_financial_kpis computeKPIsBody
  simp only [h]
  rfl

/-- Witness for C1 at a concrete input: the empty store, default query. -/
theorem claim_c1_witness :
    get_financial_kpis 12 "consolidated" 0 emptyStore =
      .error ⟨500,
        "Error calculating KPIs: 404: No financial data found for the specified period"⟩ :=
  claim_c1_empty_window_surfaces_500 12 "consolidated" 0 emptyStore rfl

/-- C2, evaluated at the failing input: a fresh two-month run where both
months have net cash flow 200000.  Because the session has
`autoflush=False` and the single `db.commit()` runs only after the loop,
the in-loop previous-balance query never sees the cash row staged for the
first month, so both rows carry `cash_balance = 10000000 + 200000`; the
claimed chain would demand `cash_balance[1] = 10200000 + 200000`.  (The
identity `net = operating + investing + financing` itself does hold:
`200000 = 500000 - 200000 - 100000` by construction of the rows.) -/
theorem claim_c2_balance_chain_broken :
    ((generate_sample_financial_data sourceConfig 0 [c2Month0, c2Month1]
        emptyStore).cash_flow_data.map
      (fun c => (c.cash_balance, c.net_cash_flow))) =
      [(10200000, 200000), (10200000, 200000)] ∧
    ¬ ((10200000 : ℚ) = 10200000 + 200000) := by
  constructor
  · norm_num [generate_sample_financial_data, genMonth, monthlyRevenue, prevCash,
      pickLatest, emptyStore, sourceConfig, c2Month0, c2Month1, cashDraws, zeroDraws]
  · norm_num

/-- C3: every financial row a generator run produces satisfies the
defining equations of its derived fields (exactly, over ℚ). -/
theorem claim_c3_derived_fields (cfg : GenConfig) (startDate : ℤ)
    (months : List MonthInput) (p : FinancialPeriod)
    (hp : p ∈ (generate_sample_financial_data cfg startDate months
      emptyStore).financial_periods) :
    p.gross_profit = p.revenue - p.cogs ∧
    p.total_expenses = p.cogs + p.salaries + p.marketing + p.rd_expense +
      p.operations + p.other_expenses ∧
    p.net_profit = p.revenue - p.total_expenses ∧
    p.gross_margin_pct = 100 * p.gross_profit / p.revenue ∧
    p.net_margin_pct = 100 * p.net_profit / p.revenue := by
  have hp2 : ∃ m ∈ months,
      (genMonth cfg emptyStore.cash_flow_data startDate m).1 = p := by
    simpa [generate_sample_financial_data, emptyStore] using hp
  obtain ⟨m, -, rfl⟩ := hp2
  refine ⟨?_, ?_, ?_, ?_, ?_⟩ <;> simp only [genMonth] <;> ring

/-- Witness for C3 at a concrete input: the row of a one-month run. -/
theorem claim_c3_witness :
    (c3Row ∈ (generate_sample_financial_data sourceConfig 0 [plainMonth]
      emptyStore).financial_periods) ∧
    (c3Row.gross_profit = c3Row.revenue - c3Row.cogs ∧
     c3Row.total_expenses = c3Row.cogs + c3Row.salaries + c3Row.marketing +
       c3Row.rd_expense + c3Row.operations + c3Row.other_expenses ∧
     c3Row.net_profit = c3Row.revenue - c3Row.total_expenses ∧
     c3Row.gross_margin_pct = 100 * c3Row.gross_profit / c3Row.revenue ∧
     c3Row.net_margin_pct = 100 * c3Row.net_profit / c3Row.revenue) :=
  have hmem : c3Row ∈ (generate_sample_financial_data sourceConfig 0 [plainMonth]
      emptyStore).financial_periods := by
    simp [c3Row, generate_sample_financial_data, emptyStore]
  ⟨hmem, claim_c3_derived_fields sourceConfig 0 [plainMonth] c3Row hmem⟩

/-- C4, refuted at a concrete input: a generator-produced store whose
previous window sums net profit to -1 (nonzero, so the claim demands the
formula value `100 * (1 - (-1)) / (-1) = -200`), while the code's strict
`prev_profit > 0` guard (src line 330) returns 0 instead. -/
theorem claim_c4_counterexample :
    previousData 1 "consolidated" 60 cexStore ≠ [] ∧
    profitSum (previousData 1 "consolidated" 60 cexStore) = -1 ∧
    kpiGrowths (get_financial_kpis 1 "consolidated" 60 cexStore) = some (-80, 0) ∧
    100 * (profitSum (currentData 1 "consolidated" 60 cexStore) -
        profitSum (previousData 1 "consolidated" 60 cexStore)) /
      profitSum (previousData 1 "consolidated" 60 cexStore) = -200 ∧
    ((0 : ℚ) ≠ -200) := by
  refine ⟨?_, ?_, ?_, ?_, by norm_num⟩ <;>
    norm_num [previousData, currentData, profitSum, revenueSum, marginPct, kpiGrowths,
      get_financial_kpis, computeKPIsBody, latestCash, pickLatest, cexStore,
      generate_sample_financial_data, genMonth, monthlyRevenue, prevCash,
      emptyStore, sourceConfig, cexMonthPrev, cexMonthCur, zeroDraws]

/-- C4 as amended: with a nonempty previous window, the growth fields
follow their formulas under the code's strict-positivity guards — each
formula applies when the previous sum is strictly positive and the field
is 0 otherwise (so also for negative sums, not only for a zero divisor) —
and the margin change is the percentage-point difference of the two
windows' guarded margins. -/
theorem claim_c4_growth_formulas (period_months : ℕ) (unit : String)
    (asOf : ℤ) (db : Store)
    (hcur : currentData period_months unit asOf db ≠ [])
    (hprev : previousData period_months unit asOf db ≠ []) :
    ∃ r, get_financial_kpis period_months unit asOf db = .ok r ∧
      r.revenue_growth_pct =
        (if 0 < revenueSum (previousData period_months unit asOf db) then
          ((revenueSum (currentData period_months unit asOf db) -
            revenueSum (previousData period_months unit asOf db)) /
            revenueSum (previousData period_months unit asOf db)) * 100
        else 0) ∧
      r.profit_growth_pct =
        (if 0 < profitSum (previousData period_months unit asOf db) then
          ((profitSum (currentData period_months unit asOf db) -
            profitSum (previousData period_months unit asOf db)) /
            profitSum (previousData period_months unit asOf db)) * 100
        else 0) ∧
      r.margin_change_pp =
        marginPct (currentData period_months unit asOf db) -
        marginPct (previousData period_months unit asOf db) := by
  unfold get_financial_kpis computeKPIsBody
  have hc : (currentData period_months unit asOf db).isEmpty = false := by
    simpa [List.isEmpty_iff] using hcur
  have hp : (previousData period_months unit asOf db).isEmpty = false := by
    simpa [List.isEmpty_iff] using hprev
  simp only [hc, hp, Bool.false_eq_true, if_false]
  exact ⟨_, rfl, rfl, rfl, rfl⟩

/-- Witness for the amended C4 at the spec's scenario: current revenue
[1000000; 1200000] and profit [100000; 150000] against previous revenue
[900000; 1000000] and profit [80000; 90000] yield growth
`(300000/1900000)*100 = 300/19` and `(80000/170000)*100 = 800/17`. -/
theorem claim_c4_witness :
    (∃ r, get_financial_kpis 1 "consolidated" 60 scenarioStore = .ok r ∧
      r.revenue_growth_pct =
        (if 0 < revenueSum (previousData 1 "consolidated" 60 scenarioStore) then
          ((revenueSum (currentData 1 "consolidated" 60 scenarioStore) -
            revenueSum (previousData 1 "consolidated" 60 scenarioStore)) /
            revenueSum (previousData 1 "consolidated" 60 scenarioStore)) * 100
        else 0) ∧
      r.profit_growth_pct =
        (if 0 < profitSum (previousData 1 "consolidated" 60 scenarioStore) then
          ((profitSum (currentData 1 "consolidated" 60 scenarioStore) -
            profitSum (previousData 1 "consolidated" 60 scenarioStore)) /
            profitSum (previousData 1 "consolidated" 60 scenarioStore)) * 100
        else 0) ∧
      r.margin_change_pp =
        marginPct (currentData 1 "consolidated" 60 scenarioStore) -
        marginPct (previousData 1 "consolidated" 60 scenarioStore)) ∧
    kpiGrowths (get_financial_kpis 1 "consolidated" 60 scenarioStore) =
      some (300 / 19, 800 / 17) :=
  ⟨claim_c4_growth_formulas 1 "consolidated" 60 scenarioStore
      (by norm_num [currentData, scenarioStore, mkPeriod]
          exact List.cons_ne_nil _ _)
      (by norm_num [previousData, scenarioStore, mkPeriod]
          exact List.cons_ne_nil _ _),
    by norm_num [kpiGrowths, get_financial_kpis, computeKPIsBody, currentData,
      previousData, revenueSum, profitSum, marginPct, latestCash, pickLatest,
      scenarioStore, mkPeriod]⟩

/-- C5: a nonempty current window with an empty immediately-preceding
window is not an error: the endpoint succeeds and the growth and
margin-change fields default to 0 (src lines 319-331 leave them at their
initializers when `previous_data` is empty). -/
theorem claim_c5_no_baseline (period_months : ℕ) (unit : String) (asOf : ℤ)
    (db : Store)
    (hcur : currentData period_months unit asOf db ≠ [])
    (hprev : previousData period_months unit asOf db = []) :
    ∃ r, get_financial_kpis period_months unit asOf db = .ok r ∧
      r.revenue_growth_pct = 0 ∧ r.profit_growth_pct = 0 ∧
      r.margin_change_pp = 0 := by
  unfold get_financial_kpis computeKPIsBody
  have hc : (currentData period_months unit asOf db).isEmpty = false := by
    simpa [List.isEmpty_iff] using hcur
  simp only [hc, hprev, List.isEmpty_nil, Bool.false_eq_true, if_false, if_true]
  exact ⟨_, rfl, rfl, rfl, rfl⟩

/-- Witness for C5 at a concrete input: one row in the current window,
none before it. -/
theorem claim_c5_witness :
    ∃ r, get_financial_kpis 1 "consolidated" 60 noBaselineStore = .ok r ∧
      r.revenue_growth_pct = 0 ∧ r.profit_growth_pct = 0 ∧
      r.margin_change_pp = 0 :=
  claim_c5_no_baseline 1 "consolidated" 60 noBaselineStore
    (by norm_num [currentData, noBaselineStore, mkPeriod])
    (by norm_num [previousData, noBaselineStore, mkPeriod])

/-- C6: when financial rows already exist the generator returns without
committing anything (src lines 155-159), and running the generator twice
with identical arguments leaves every table with the same record count as
running it once. -/
theorem claim_c6_idempotent (cfg : GenConfig) (startDate : ℤ)
    (months : List MonthInput) (db : Store) :
    (db.financial_periods ≠ [] →
      generate_sample_financial_data cfg startDate months db = db) ∧
    ((generate_sample_financial_data cfg startDate months
        (generate_sample_financial_data cfg startDate months db)).financial_periods.length =
      (generate_sample_financial_data cfg startDate months db).financial_periods.length ∧
     (generate_sample_financial_data cfg startDate months
        (generate_sample_financial_data cfg startDate months db)).budget_data.length =
      (generate_sample_financial_data cfg startDate months db).budget_data.length ∧
     (generate_sample_financial_data cfg startDate months
        (generate_sample_financial_data cfg startDate months db)).cash_flow_data.length =
      (generate_sample_financial_data cfg startDate months db).cash_flow_data.length) := by
  have noop : ∀ s : Store, s.financial_periods ≠ [] →
      generate_sample_financial_data cfg startDate months s = s := by
    intro s hs
    unfold generate_sample_financial_data
    rw [if_pos (List.length_pos.mpr hs)]
  refine ⟨noop db, ?_⟩
  by_cases hdb : db.financial_periods = []
  · by_cases hm : months = []
    · subst hm
      simp [generate_sample_financial_data, hdb]
    · have h1 : (generate_sample_financial_data cfg startDate months
          db).financial_periods ≠ [] := by
        unfold generate_sample_financial_data
        rw [if_neg (by simp [hdb])]
        simp [hdb, List.map_eq_nil_iff, hm]
      rw [noop _ h1]
      exact ⟨rfl, rfl, rfl⟩
  · simp [noop db hdb]

/-- C7: the period listing equals the limit newest matching rows (bounded
truncation of the newest-first ordering), is returned in ascending
`period_date` order, every excluded matching row is no newer than every
returned row, and each returned element is a field-for-field copy
(`toMetrics`) of a stored row — nothing is recomputed. -/
theorem claim_c7_listing (sd ed : Option ℤ) (unit : String) (lim : ℕ)
    (db : Store) :
    get_financial_periods sd ed unit lim db =
      ((listTaken sd ed unit lim db).reverse).map toMetrics ∧
    List.Pairwise (fun a b : FinancialMetrics => a.period_date ≤ b.period_date)
      (get_financial_periods sd ed unit lim db) ∧
    (listTaken sd ed unit lim db).length =
      min lim (listMatching sd ed unit db).length ∧
    (∃ rest, (listMatching sd ed unit db).Perm
        (listTaken sd ed unit lim db ++ rest) ∧
      ∀ p ∈ rest, ∀ q ∈ listTaken sd ed unit lim db,
        p.period_date ≤ q.period_date) ∧
    (∀ m ∈ get_financial_periods sd ed unit lim db,
      ∃ p ∈ listMatching sd ed unit db, m = toMetrics p) := by
  have hsorted : List.Pairwise byDateDesc
      (List.insertionSort byDateDesc (listMatching sd ed unit db)) :=
    List.sorted_insertionSort byDateDesc (listMatching sd ed unit db)
  have htake : List.Pairwise byDateDesc (listTaken sd ed unit lim db) :=
    List.Pairwise.sublist (List.take_sublist lim _) hsorted
  refine ⟨rfl, ?_, ?_, ?_, ?_⟩
  · exact List.Pairwise.map toMetrics (fun a b h => h)
      (List.pairwise_reverse.mpr htake)
  · simp [listTaken, List.length_take, List.length_insertionSort]
  · have hsplit : listTaken sd ed unit lim db ++
        (List.insertionSort byDateDesc (listMatching sd ed unit db)).drop lim =
        List.insertionSort byDateDesc (listMatching sd ed unit db) :=
      List.take_append_drop lim _
    refine ⟨(List.insertionSort byDateDesc (listMatching sd ed unit db)).drop lim,
      ?_, ?_⟩
    · rw [hsplit]
      exact (List.perm_insertionSort byDateDesc (listMatching sd ed unit db)).symm
    · have hp2 : List.Pairwise byDateDesc (listTaken sd ed unit lim db ++
          (List.insertionSort byDateDesc (listMatching sd ed unit db)).drop lim) := by
        rw [hsplit]
        exact hsorted
      obtain ⟨-, -, hrel⟩ := List.pairwise_append.mp hp2
      intro p hp' q hq
      exact hrel q hq p hp'
  · intro m hm
    obtain ⟨p, hp, rfl⟩ := List.mem_map.mp hm
    refine ⟨p, ?_, rfl⟩
    have h1 : p ∈ listTaken sd ed unit lim db := List.mem_reverse.mp hp
    have h2 : p ∈ List.insertionSort byDateDesc (listMatching sd ed unit db) :=
      (List.take_sublist lim _).subset h1
    exact (List.mem_insertionSort byDateDesc).mp h2

/-- C8: the budget row of every generated month multiplies revenue and
net profit by the one shared draw `budgetVariance` (src line 214 draws it
once, lines 217-218 reuse it), multiplies expenses by the separate draw
`budgetExpensesDraw` (line 219), and therefore budget_revenue/revenue
equals budget_net_profit/net_profit whenever both denominators are
nonzero. -/
theorem claim_c8_shared_budget_draw (cfg : GenConfig)
    (committed : List CashFlowData) (startDate : ℤ) (m : MonthInput) :
    (genMonth cfg committed startDate m).2.1.budget_revenue =
      (genMonth cfg committed startDate m).1.revenue * m.draws.budgetVariance ∧
    (genMonth cfg committed startDate m).2.1.budget_net_profit =
      (genMonth cfg committed startDate m).1.net_profit * m.draws.budgetVariance ∧
    (genMonth cfg committed startDate m).2.1.budget_expenses =
      (genMonth cfg committed startDate m).1.total_expenses *
        m.draws.budgetExpensesDraw ∧
    ((genMonth cfg committed startDate m).1.revenue ≠ 0 →
      (genMonth cfg committed startDate m).1.net_profit ≠ 0 →
      (genMonth cfg committed startDate m).2.1.budget_revenue /
          (genMonth cfg committed startDate m).1.revenue =
        (genMonth cfg committed startDate m).2.1.budget_net_profit /
          (genMonth cfg committed startDate m).1.net_profit) := by
  refine ⟨rfl, rfl, rfl, fun hrev hnp => ?_⟩
  show (genMonth cfg committed startDate m).1.revenue * m.draws.budgetVariance /
      (genMonth cfg committed startDate m).1.revenue =
    (genMonth cfg committed startDate m).1.net_profit * m.draws.budgetVariance /
      (genMonth cfg committed startDate m).1.net_profit
  rw [mul_div_cancel_left₀ _ hrev, mul_div_cancel_left₀ _ hnp]

/-- C9, refuted at a concrete input: with annual revenue base -12 the
generator raises no error — it has no validation and no failure channel —
and commits one record per month; the month's revenue is the floored
`max((-12/12) * 1 * 1 * 1, 0) = 0`. -/
theorem claim_c9_counterexample :
    (generate_sample_financial_data negBaseConfig 0 [plainMonth]
      emptyStore).financial_periods.length = 1 ∧
    ((generate_sample_financial_data negBaseConfig 0 [plainMonth]
      emptyStore).financial_periods.map (fun p => p.revenue)) = [0] := by
  norm_num [generate_sample_financial_data, genMonth, monthlyRevenue, emptyStore,
    negBaseConfig, plainMonth, zeroDraws, prevCash, pickLatest, max_def]

/-- C9 as amended: the generator never validates the revenue base (in the
source it is the fixed constant 50000000); run on a fresh store with a
zero or negative base it reports no configuration error and commits one
row per month exactly as usual, and — whenever each month's seasonal and
random factors are nonnegative — the final per-month floor clamps every
committed revenue to 0. -/
theorem claim_c9_no_validation (cfg : GenConfig) (startDate : ℤ)
    (months : List MonthInput) (db : Store)
    (hbase : cfg.revenueBase ≤ 0)
    (hdb : db.financial_periods = [])
    (hfac : ∀ m ∈ months,
      0 ≤ 1 + (1 / 10) * m.sinMonth ∧ 0 ≤ m.draws.randomFactor) :
    (generate_sample_financial_data cfg startDate months
      db).financial_periods.length = months.length ∧
    ∀ p ∈ (generate_sample_financial_data cfg startDate months
      db).financial_periods, p.revenue = 0 := by
  unfold generate_sample_financial_data
  rw [if_neg (by simp [hdb])]
  refine ⟨by simp [hdb], ?_⟩
  intro p hp
  have hp2 : ∃ m ∈ months, (genMonth cfg db.cash_flow_data startDate m).1 = p := by
    simpa [hdb] using hp
  obtain ⟨m, hm, rfl⟩ := hp2
  show monthlyRevenue cfg m = 0
  unfold monthlyRevenue
  have h1 := (hfac m hm).1
  have h2 := (hfac m hm).2
  have hgrow : (0 : ℚ) ≤ 1 + (m.monthsSinceStart : ℚ) * (5 / 1000) := by positivity
  have hb : cfg.revenueBase / 12 ≤ 0 := by linarith
  have hprod : cfg.revenueBase / 12 * (1 + 1 / 10 * m.sinMonth) *
      (1 + (m.monthsSinceStart : ℚ) * (5 / 1000)) * m.draws.randomFactor ≤ 0 :=
    mul_nonpos_of_nonpos_of_nonneg
      (mul_nonpos_of_nonpos_of_nonneg
        (mul_nonpos_of_nonpos_of_nonneg hb h1) hgrow) h2
  exact max_eq_right hprod

/-- Witness for the amended C9 at a concrete input: base -12, one plain
month, fresh store. -/
theorem claim_c9_witness :
    (generate_sample_financial_data negBaseConfig 0 [plainMonth]
      emptyStore).financial_periods.length = [plainMonth].length ∧
    ∀ p ∈ (generate_sample_financial_data negBaseConfig 0 [plainMonth]
      emptyStore).financial_periods, p.revenue = 0 :=
  claim_c9_no_validation negBaseConfig 0 [plainMonth] emptyStore
    (by norm_num [negBaseConfig]) rfl
    (by intro m hm
        simp only [List.mem_singleton] at hm
        subst hm
        norm_num [plainMonth, zeroDraws])

/-- C10: every row a fresh generator run commits carries the column
default company unit "consolidated" (the generator constructs all three
row kinds without setting `company_unit`), so the unit-filtered KPI and
period-listing queries for any other unit match zero records of that
store. -/
theorem claim_c10_default_unit (cfg : GenConfig) (startDate : ℤ)
    (months : List MonthInput) :
    (∀ p ∈ (generate_sample_financial_data cfg startDate months
        emptyStore).financial_periods, p.company_unit = "consolidated") ∧
    (∀ b ∈ (generate_sample_financial_data cfg startDate months
        emptyStore).budget_data, b.company_unit = "consolidated") ∧
    (∀ c ∈ (generate_sample_financial_data cfg startDate months
        emptyStore).cash_flow_data, c.company_unit = "consolidated") ∧
    (∀ u, u ≠ "consolidated" → ∀ period_months asOf,
      currentData period_months u asOf
        (generate_sample_financial_data cfg startDate months emptyStore) = [] ∧
      previousData period_months u asOf
        (generate_sample_financial_data cfg startDate months emptyStore) = []) ∧
    (∀ u, u ≠ "consolidated" → ∀ osd oed,
      listMatching osd oed u
        (generate_sample_financial_data cfg startDate months emptyStore) = []) := by
  have hfin : ∀ p ∈ (generate_sample_financial_data cfg startDate months
      emptyStore).financial_periods, p.company_unit = "consolidated" := by
    intro p hp
    have hp2 : ∃ m ∈ months,
        (genMonth cfg emptyStore.cash_flow_data startDate m).1 = p := by
      simpa [generate_sample_financial_data, emptyStore] using hp
    obtain ⟨m, -, rfl⟩ := hp2
    rfl
  refine ⟨hfin, ?_, ?_, ?_, ?_⟩
  · intro b hb
    have hb2 : ∃ m ∈ months,
        (genMonth cfg emptyStore.cash_flow_data startDate m).2.1 = b := by
      simpa [generate_sample_financial_data, emptyStore] using hb
    obtain ⟨m, -, rfl⟩ := hb2
    rfl
  · intro c hc
    have hc2 : ∃ m ∈ months,
        (genMonth cfg emptyStore.cash_flow_data startDate m).2.2 = c := by
      simpa [generate_sample_financial_data, emptyStore] using hc
    obtain ⟨m, -, rfl⟩ := hc2
    rfl
  · intro u hu period_months asOf
    constructor
    · refine List.filter_eq_nil_iff.mpr ?_
      intro p hp
      simp only [decide_eq_true_eq, not_and]
      intro _ _
      rw [hfin p hp]
      exact fun h => hu h.symm
    · refine List.filter_eq_nil_iff.mpr ?_
      intro p hp
      simp only [decide_eq_true_eq, not_and]
      intro _ _
      rw [hfin p hp]
      exact fun h => hu h.symm
  · intro u hu osd oed
    have hbase : (generate_sample_financial_data cfg startDate months
        emptyStore).financial_periods.filter
        (fun p => decide (p.company_unit = u)) = [] := by
      refine List.filter_eq_nil_iff.mpr ?_
      intro p hp
      simp only [decide_eq_true_eq]
      rw [hfin p hp]
      exact fun h => hu h.symm
    unfold listMatching
    rw [hbase]
    cases osd <;> cases oed <;> rfl

end ErpFinancial
